import Mathlib

/-!
Verification of the pipeline/stage/manager core of the repository
(`ex3.py`, `nexus_pipeline.py`, `ex.py`) together with its two external
collaborators (`stream_processor.py`, `data_stream.py`).

The Python code is shallowly embedded: Python dicts become insertion-ordered
association lists, raised exceptions become `Except` errors, and the
`print` side effects (pure narration in the source) are dropped.  Each
source file gets its own namespace (`Ex3`, `Nexus`, `StreamProc`,
`DataStream`); machinery that is textually identical between the pipeline
variants (the stage-sequencing loop and the adapter/format routing scan)
is defined once, generically.
-/

namespace PyPipeline

/-- A Python scalar value stored in one of the program's dicts: a string, a
numeric literal written with `e` digits after the decimal point (so
`num 235 1` is the float literal `23.5` and `num 1 0` the int `1`), or a
list of strings as produced by `str.split`. -/
inductive Val where
  | str (s : String)
  | num (m : Int) (e : Nat)
  | list (xs : List String)
deriving DecidableEq, Repr

/-- Decimal rendering of `num m e` — the text Python's f-string produces for
the corresponding int (`e = 0`) or finite-decimal float literal. -/
def decimalRepr (m : Int) (e : Nat) : String :=
  if e = 0 then toString m
  else
    let n := m.natAbs
    let intPart := n / 10 ^ e
    let fracStr := toString (n % 10 ^ e)
    (if m < 0 then "-" else "") ++ toString intPart ++ "." ++
      (String.mk (List.replicate (e - fracStr.length) '0') ++ fracStr)

/-- The text an f-string interpolation `f"{v}"` produces for a value. -/
def Val.pyStr : Val → String
  | .str s => s
  | .num m e => decimalRepr m e
  | .list xs => "[" ++ String.intercalate ", " (xs.map fun x => "'" ++ x ++ "'") ++ "]"

/-- Rendering of `dict.get(k)`: Python prints `None` for a missing key. -/
def pyStrOpt : Option Val → String
  | Option.none => "None"
  | some v => v.pyStr

/-- Python's `c in s` substring test, for a single-character needle. -/
def pyContains (s : String) (c : Char) : Bool :=
  s.data.contains c

/-- Python's `s.split(sep)` on the character list, for a single-character
separator: cut at every occurrence, keeping empty chunks, with
`"".split(sep) == [""]`.  The `[]` arm of the inner match is unreachable
(the recursion always returns a non-empty list). -/
def pySplitChars (c : Char) : List Char → List (List Char)
  | [] => [[]]
  | x :: xs =>
    if x == c then [] :: pySplitChars c xs
    else
      match pySplitChars c xs with
      | chunk :: rest => (x :: chunk) :: rest
      | [] => [[x]]

/-- Python's `s.split(sep)` for a single-character separator. -/
def pySplit (s : String) (c : Char) : List String :=
  (pySplitChars c s.data).map String.mk

/-- A Python dict as an insertion-ordered association list.  Every dict the
program builds has pairwise-distinct keys. -/
abbrev Dict := List (String × Val)

/-- `d.get(k)` / `d[k]` lookup: the entry of the (unique) matching key. -/
def dictGet? : Dict → String → Option Val
  | [], _ => Option.none
  | e :: rest, k => if e.1 == k then some e.2 else dictGet? rest k

/-- Python's `k in d` membership test. -/
def dictHas (d : Dict) (k : String) : Bool :=
  (dictGet? d k).isSome

/-- Python's `d[k] = v`: replace the value of an existing key in place
(keeping insertion order), or append a new key at the end. -/
def dictSet : Dict → String → Val → Dict
  | [], k, v => [(k, v)]
  | e :: rest, k, v => if e.1 == k then (k, v) :: rest else e :: dictSet rest k v

/-- Exceptions the embedded code can raise. -/
inductive PyErr where
  | valueError (msg : String)
  | keyError (key : String)
  | zeroDivisionError (msg : String)
deriving DecidableEq, Repr

/-- A payload flowing through a pipeline: `None`, raw text, or a record. -/
inductive Payload where
  | none
  | str (s : String)
  | dict (d : Dict)
deriving DecidableEq, Repr

/-- Python truthiness of a payload (`if not payload:` tests its negation):
`None`, the empty string and the empty dict are falsy. -/
def pyTruthy : Payload → Bool
  | .none => false
  | .str s => !(s == "")
  | .dict d => !d.isEmpty

/-- The three adapter classes; a pipeline's routing identity is its class
(`JSONAdapter`, `CSVAdapter`, `StreamAdapter`). -/
inductive AdapterKind where
  | json
  | csv
  | stream
deriving DecidableEq, Repr

/-- A `ProcessingPipeline`: adapter class, `pipeline_id`, and the ordered
stage list built by `add_stage`.  `σ` is the stage type of the variant. -/
structure PipelineOf (σ : Type) where
  kind : AdapterKind
  pipeline_id : String
  stages : List σ
deriving Repr

instance {σ : Type} [DecidableEq σ] : DecidableEq (PipelineOf σ) := fun a b =>
  decidable_of_iff
    (a.kind = b.kind ∧ a.pipeline_id = b.pipeline_id ∧ a.stages = b.stages)
    (by cases a; cases b; simp)

/-- The `run_stages` / `_run_stages` loop, identical in both variants: feed
the payload through the stages in order; a raised exception aborts the loop
and propagates. -/
def runStages {σ : Type} (proc : σ → Payload → Except PyErr Payload) :
    List σ → Payload → Except PyErr Payload
  | [], data => .ok data
  | s :: rest, data =>
    match proc s data with
    | .error e => .error e
    | .ok next => runStages proc rest next

/-- An adapter's `process`: both variants just delegate to the stage loop. -/
def PipelineOf.run {σ : Type} (proc : σ → Payload → Except PyErr Payload)
    (p : PipelineOf σ) (data : Payload) : Except PyErr Payload :=
  runStages proc p.stages data

/-- The isinstance/format test of `process_data`: a `JSONAdapter` matches
exactly the tag `"json"`, and so on. -/
def formatMatches (k : AdapterKind) (format : String) : Bool :=
  match k with
  | .json => format == "json"
  | .csv => format == "csv"
  | .stream => format == "stream"

/-- The linear scan with `break` of `process_data`: the first registered
pipeline whose adapter class matches the requested tag. -/
def selectPipeline {σ : Type} : List (PipelineOf σ) → String → Option (PipelineOf σ)
  | [], _ => Option.none
  | p :: rest, format =>
    if formatMatches p.kind format then some p else selectPipeline rest format

instance {ε : Type} {α : Type} [DecidableEq ε] [DecidableEq α] :
    DecidableEq (Except ε α)
  | .ok x, .ok y =>
    if h : x = y then isTrue (by rw [h]) else isFalse (fun hh => h (by injection hh))
  | .error x, .error y =>
    if h : x = y then isTrue (by rw [h]) else isFalse (fun hh => h (by injection hh))
  | .ok _, .error _ => isFalse (fun hh => Except.noConfusion hh)
  | .error _, .ok _ => isFalse (fun hh => Except.noConfusion hh)

/-- Observable outcome of one `process_data` call: the selected pipeline's
run, or the printed routing-error report (no exception is raised). -/
inductive RouteResult where
  | routed (r : Except PyErr Payload)
  | noRoute (msg : String)
deriving DecidableEq, Repr

namespace Ex3

/-- The three stage classes of `ex3.py`. -/
inductive Stage where
  | input
  | transform
  | output
deriving DecidableEq, Repr

/-- The `ValueError("Empty data received")` of `ex3.py`'s `InputStage`. -/
def EmptyPayload : PyErr := .valueError "Empty data received"

/-- The `ValueError("Invalid data format")` of `ex3.py`'s `TransformStage`. -/
def InvalidFormat : PyErr := .valueError "Invalid data format"

/-- `ex3.py` `InputStage.process`: raise on a falsy payload, else identity. -/
def InputStage.process (payload : Payload) : Except PyErr Payload :=
  if pyTruthy payload then .ok payload else .error EmptyPayload

/-- `ex3.py` `TransformStage.process`: a dict with a `"sensor"` key gets
`payload["status"] = "valid"`; a string containing `","` becomes the record
`{type: "csv", headers: split fields, count: 1}`; the literal string
`"INVALID_DATA"` raises; anything else (including a dict without
`"sensor"`, which fails the `payload == "INVALID_DATA"` comparison) is
returned unchanged. -/
def TransformStage.process (payload : Payload) : Except PyErr Payload :=
  match payload with
  | .dict d =>
    if dictHas d "sensor" then .ok (.dict (dictSet d "status" (.str "valid")))
    else .ok (.dict d)
  | .str s =>
    if pyContains s ',' then
      .ok (.dict [("type", .str "csv"), ("headers", .list (pySplit s ',')),
        ("count", .num 1 0)])
    else if s == "INVALID_DATA" then .error InvalidFormat
    else .ok (.str s)
  | .none => .ok .none

/-- `ex3.py` `OutputStage.process`: renders and returns the result string —
for a dict with `"sensor"` the temperature template over `payload.get('value')`,
for a dict whose `get('type')` equals `"csv"` the activity template over
`get('count')`, for any other dict the initial empty `result`, and for a
non-dict the fixed stream summary. -/
def OutputStage.process (payload : Payload) : Except PyErr Payload :=
  match payload with
  | .dict d =>
    if dictHas d "sensor" then
      .ok (.str ("Processed temperature reading: " ++ pyStrOpt (dictGet? d "value")
        ++ "°C (Normal range)"))
    else if dictGet? d "type" == some (.str "csv") then
      .ok (.str ("User activity logged: " ++ pyStrOpt (dictGet? d "count")
        ++ " actions processed"))
    else .ok (.str "")
  | _ => .ok (.str "Stream summary: 5 readings, avg: 22.1°C")

/-- Dispatch of `stage.process` over the three `ex3.py` stage classes. -/
def stageProcess : Stage → Payload → Except PyErr Payload
  | .input, p => InputStage.process p
  | .transform, p => TransformStage.process p
  | .output, p => OutputStage.process p

/-- An `ex3.py` adapter's `process`, via `_run_stages`. -/
def Pipeline.process (pl : PipelineOf Stage) (data : Payload) : Except PyErr Payload :=
  pl.run stageProcess data

/-- `ex3.py` `NexusManager`: the registration-ordered pipeline list. -/
structure NexusManager where
  pipelines : List (PipelineOf Stage)
deriving DecidableEq, Repr

/-- The routing-error report printed by `ex3.py`'s `process_data`. -/
def routingErrorMsg (format : String) : String :=
  "[ERROR] No suitable pipeline found for " ++ format

/-- `ex3.py` `NexusManager.process_data`: scan for the first matching
adapter and run it, or report the routing error.  The method never assigns
to `self.pipelines`, so the manager state is returned unchanged. -/
def NexusManager.process_data (m : NexusManager) (data : Payload)
    (format : String) : NexusManager × RouteResult :=
  match selectPipeline m.pipelines format with
  | some pl => (m, .routed (Pipeline.process pl data))
  | Option.none => (m, .noRoute (routingErrorMsg format))

end Ex3

namespace Nexus

/-- The three stage classes of `nexus_pipeline.py`. -/
inductive Stage where
  | input
  | transform
  | output
deriving DecidableEq, Repr

/-- The `ValueError("Data is empty")` of `nexus_pipeline.py`'s `InputStage`. -/
def EmptyPayload : PyErr := .valueError "Data is empty"

/-- The `ValueError("Invalid data format")` of `nexus_pipeline.py`'s
`TransformStage`. -/
def InvalidFormat : PyErr := .valueError "Invalid data format"

/-- `nexus_pipeline.py` `InputStage.process`: raise on a falsy payload,
else identity. -/
def InputStage.process (data : Payload) : Except PyErr Payload :=
  if pyTruthy data then .ok data else .error EmptyPayload

/-- `nexus_pipeline.py` `TransformStage.process`: a dict with a `"sensor"`
key gets `data["sensor"] = "valid"` (the sensor field itself is
overwritten); a string containing `","` becomes the record
`{type: "csv", data: split fields, count: 1}`; a dict without `"sensor"`
raises; anything else is returned unchanged. -/
def TransformStage.process (data : Payload) : Except PyErr Payload :=
  match data with
  | .dict d =>
    if dictHas d "sensor" then .ok (.dict (dictSet d "sensor" (.str "valid")))
    else .error InvalidFormat
  | .str s =>
    if pyContains s ',' then
      .ok (.dict [("type", .str "csv"), ("data", .list (pySplit s ',')),
        ("count", .num 1 0)])
    else .ok (.str s)
  | .none => .ok .none

/-- `nexus_pipeline.py` `OutputStage.process`: computes the rendered result
string for printing but does `return data` — the payload itself is the
return value on every non-raising path.  For a dict without `"sensor"` the
`data["type"]` subscript raises `KeyError` when the key is absent. -/
def OutputStage.process (data : Payload) : Except PyErr Payload :=
  match data with
  | .dict d =>
    if dictHas d "sensor" then .ok (.dict d)
    else
      match dictGet? d "type" with
      | Option.none => .error (.keyError "type")
      | some _ => .ok (.dict d)
  | p => .ok p

/-- Dispatch of `stage.process` over the three `nexus_pipeline.py` stage
classes. -/
def stageProcess : Stage → Payload → Except PyErr Payload
  | .input, p => InputStage.process p
  | .transform, p => TransformStage.process p
  | .output, p => OutputStage.process p

/-- A `nexus_pipeline.py` adapter's `process`, via `run_stages`. -/
def Pipeline.process (pl : PipelineOf Stage) (data : Payload) : Except PyErr Payload :=
  pl.run stageProcess data

/-- `nexus_pipeline.py` `NexusManager`: the registration-ordered pipeline
list (field named `pipeline` in the source). -/
structure NexusManager where
  pipeline : List (PipelineOf Stage)
deriving DecidableEq, Repr

/-- The routing-error report printed by `nexus_pipeline.py`'s
`process_data`, naming the unmatched tag. -/
def routingErrorMsg (format : String) : String :=
  "[ERROR]: " ++ format ++ " is not a register pipeline"

/-- `nexus_pipeline.py` `NexusManager.process_data`: scan for the first
matching adapter and run it, or report the routing error.  The method never
assigns to `self.pipeline`, so the manager state is returned unchanged. -/
def NexusManager.process_data (m : NexusManager) (data : Payload)
    (format : String) : NexusManager × RouteResult :=
  match selectPipeline m.pipeline format with
  | some pl => (m, .routed (Pipeline.process pl data))
  | Option.none => (m, .noRoute (routingErrorMsg format))

end Nexus

namespace StreamProc

/-- An element of the list handed to `NumericProcessor` in
`stream_processor.py`: an int, or a value of any other runtime type
(carried with its printed form, which only feeds the error trace). -/
inductive NumItem where
  | int (n : Int)
  | nonInt (txt : String)
deriving DecidableEq, Repr

/-- The int summed by the `sum += number` loop; only reached once
`validate` has ruled out non-int elements. -/
def NumItem.toInt : NumItem → Int
  | .int n => n
  | .nonInt _ => 0

/-- `stream_processor.py` `NumericProcessor.validate`: raises `TypeError`
at the first element whose type is not `int`, catches it, prints, and
returns `False`; returns `True` when every element is an int — in
particular for the empty list, whose loop body never runs. -/
def NumericProcessor.validate (data : List NumItem) : Bool :=
  data.all fun x => match x with | .int _ => true | .nonInt _ => false

/-- `stream_processor.py` `NumericProcessor.process`: bare `return` (i.e.
`None`) when validation fails; otherwise counts and sums the elements and
computes `avg = sum / count`, which raises `ZeroDivisionError` when the
list is empty.  Python renders the float quotient in the summary string;
the embedding renders the exact rational — no theorem inspects this
string. -/
def NumericProcessor.process (data : List NumItem) : Except PyErr (Option String) :=
  if NumericProcessor.validate data = false then .ok Option.none
  else
    let count : Nat := data.length
    let total : Int := (data.map NumItem.toInt).sum
    if count = 0 then .error (.zeroDivisionError "division by zero")
    else
      .ok (some ("Processed " ++ toString count ++ " numeric values, sum="
        ++ toString total ++ ", avg=" ++ toString ((total : Rat) / (count : Rat))))

end StreamProc

namespace DataStream

/-- An element of a data batch in `data_stream.py`: a string, or a value of
any other runtime type (skipped by the `isinstance(item, str)` guard). -/
inductive SItem where
  | str (s : String)
  | nonStr
deriving DecidableEq, Repr

/-- The `ValueError` raised by `key, value = item.split(':')` when the item
holds more than one colon. -/
def unpackErr : PyErr := .valueError "too many values to unpack (expected 2)"

/-- The `criteria == "High-priority"` loop of
`SensorStream.filter_data`, threading the accumulated `filtered_data` list
and the `self.criteria_sensor` counter.  Python's `float(value)` builtin is
an explicit parameter `pf`; for a `temp` key the source calls it once in
the `> 25` counter test and again in the append. -/
def sensorFilterHP (pf : String → Except PyErr Rat) :
    List SItem → List (String × Rat) → Nat → Except PyErr (List (String × Rat) × Nat)
  | [], acc, cnt => .ok (acc, cnt)
  | item :: rest, acc, cnt =>
    match item with
    | .nonStr => sensorFilterHP pf rest acc cnt
    | .str s =>
      if pyContains s ':' then
        match pySplit s ':' with
        | [k, v] =>
          if k == "temp" then
            match pf v with
            | .error e => .error e
            | .ok x =>
              let cnt2 := if x > 25 then cnt + 1 else cnt
              match pf v with
              | .error e => .error e
              | .ok y => sensorFilterHP pf rest (acc ++ [(k, y)]) cnt2
          else if k == "humidity" || k == "pressure" then
            match pf v with
            | .error e => .error e
            | .ok y => sensorFilterHP pf rest (acc ++ [(k, y)]) cnt
          else sensorFilterHP pf rest acc cnt
        | _ => .error unpackErr
      else sensorFilterHP pf rest acc cnt

/-- The `else` loop of `SensorStream.filter_data` (criteria omitted or not
`"High-priority"`): the same tokenizing and key filtering, with no counter
logic. -/
def sensorFilterDefault (pf : String → Except PyErr Rat) :
    List SItem → List (String × Rat) → Except PyErr (List (String × Rat))
  | [], acc => .ok acc
  | item :: rest, acc =>
    match item with
    | .nonStr => sensorFilterDefault pf rest acc
    | .str s =>
      if pyContains s ':' then
        match pySplit s ':' with
        | [k, v] =>
          if k == "temp" || k == "humidity" || k == "pressure" then
            match pf v with
            | .error e => .error e
            | .ok y => sensorFilterDefault pf rest (acc ++ [(k, y)])
          else sensorFilterDefault pf rest acc
        | _ => .error unpackErr
      else sensorFilterDefault pf rest acc

/-- `data_stream.py` `SensorStream.filter_data`: branch on the criteria and
run the matching loop.  The result pairs the returned filtered list with
the delta applied to `self.criteria_sensor` (zero on the default branch,
which never touches the counter). -/
def SensorStream.filter_data (pf : String → Except PyErr Rat)
    (data_batch : List SItem) (criteria : Option String) :
    Except PyErr (List (String × Rat) × Nat) :=
  if criteria == some "High-priority" then sensorFilterHP pf data_batch [] 0
  else (sensorFilterDefault pf data_batch []).map (fun l => (l, 0))

end DataStream

/-- The record processed as JSON data in both mains:
`{"sensor": "temp", "value": 23.5, "unit": "C"}`. -/
def demoRecord : Payload :=
  .dict [("sensor", .str "temp"), ("value", .num 235 1), ("unit", .str "C")]

/-- The manager built by `ex3.py`'s `main`: a JSON, a CSV and a Stream
adapter, each with the input, transform and output stages attached in
order. -/
def Ex3.demoManager : Ex3.NexusManager :=
  ⟨[⟨.json, "PIPE_01", [.input, .transform, .output]⟩,
    ⟨.csv, "PIPE_02", [.input, .transform, .output]⟩,
    ⟨.stream, "PIPE_03", [.input, .transform, .output]⟩]⟩

/-- The manager built by `nexus_pipeline.py`'s `main`: a JSON, a CSV and a
Stream adapter, each with the input, transform and output stages attached
in order. -/
def Nexus.demoManager : Nexus.NexusManager :=
  ⟨[⟨.json, "PIPELINE_01", [.input, .transform, .output]⟩,
    ⟨.csv, "PIPELINE_02", [.input, .transform, .output]⟩,
    ⟨.stream, "PIPELINE_03", [.input, .transform, .output]⟩]⟩

end PyPipeline



namespace PyPipeline

/-- Splitting the stage loop at a decomposition point: running `l1 ++ l2`
runs `l1`, and on success continues with `l2` from its result. -/
theorem runStages_append {σ : Type} (proc : σ → Payload → Except PyErr Payload)
    (l1 l2 : List σ) (p : Payload) :
    runStages proc (l1 ++ l2) p =
      match runStages proc l1 p with
      | .error e => .error e
      | .ok q => runStages proc l2 q := by
  induction l1 generalizing p with
  | nil => rfl
  | cons s rest ih =>
    simp only [List.cons_append, runStages]
    cases hp : proc s p with
    | error e => rfl
    | ok q => exact ih q

/-- The routing scan returns the first registered pipeline matching the
tag, whatever is registered after it. -/
theorem selectPipeline_first {σ : Type} (pre post : List (PipelineOf σ))
    (pl : PipelineOf σ) (format : String)
    (hm : formatMatches pl.kind format = true)
    (hpre : ∀ q ∈ pre, formatMatches q.kind format = false) :
    selectPipeline (pre ++ pl :: post) format = some pl := by
  induction pre with
  | nil => simp [selectPipeline, hm]
  | cons a rest ih =>
    have ha : formatMatches a.kind format = false := hpre a (List.mem_cons_self a rest)
    simp only [List.cons_append, selectPipeline, ha, Bool.false_eq_true, if_false]
    exact ih fun q hq => hpre q (List.mem_cons_of_mem a hq)

/-- The routing scan finds nothing when no registered pipeline matches. -/
theorem selectPipeline_eq_none {σ : Type} (ps : List (PipelineOf σ)) (format : String)
    (h : ∀ p ∈ ps, formatMatches p.kind format = false) :
    selectPipeline ps format = Option.none := by
  induction ps with
  | nil => rfl
  | cons a rest ih =>
    have ha : formatMatches a.kind format = false := h a (List.mem_cons_self a rest)
    simp only [selectPipeline, ha, Bool.false_eq_true, if_false]
    exact ih fun q hq => h q (List.mem_cons_of_mem a hq)

/-- Looking up the assigned key after a dict assignment yields the new
value. -/
theorem dictGet?_dictSet_self (d : Dict) (k : String) (v : Val) :
    dictGet? (dictSet d k v) k = some v := by
  induction d with
  | nil => simp [dictSet, dictGet?]
  | cons e rest ih =>
    by_cases h : e.1 = k
    · simp [dictSet, dictGet?, h]
    · simp [dictSet, dictGet?, h, ih]

/-- A dict assignment leaves the binding of every other key unchanged. -/
theorem dictGet?_dictSet_ne (d : Dict) (k k2 : String) (v : Val) (h : k2 ≠ k) :
    dictGet? (dictSet d k v) k2 = dictGet? d k2 := by
  induction d with
  | nil => simp [dictSet, dictGet?, Ne.symm h]
  | cons e rest ih =>
    by_cases he : e.1 = k
    · simp [dictSet, dictGet?, he, Ne.symm h]
    · simp [dictSet, dictGet?, he, ih]

end PyPipeline

namespace PyPipeline

/-- The high-priority loop of `SensorStream.filter_data` and the default
loop agree on the returned list (and on any raised exception); the counter
is the only difference. -/
theorem sensorFilterHP_map_fst (pf : String → Except PyErr Rat)
    (batch : List DataStream.SItem) :
    ∀ (acc : List (String × Rat)) (cnt : Nat),
      (DataStream.sensorFilterHP pf batch acc cnt).map Prod.fst
        = DataStream.sensorFilterDefault pf batch acc := by
  induction batch with
  | nil => intro acc cnt; rfl
  | cons item rest ih =>
    intro acc cnt
    cases item with
    | nonStr =>
      simp only [DataStream.sensorFilterHP, DataStream.sensorFilterDefault]
      exact ih acc cnt
    | str s =>
      simp only [DataStream.sensorFilterHP, DataStream.sensorFilterDefault]
      cases hc : pyContains s ':' with
      | false =>
        simp only [hc, Bool.false_eq_true, if_false]
        exact ih acc cnt
      | true =>
        simp only [hc, if_true]
        cases hsp : pySplit s ':' with
        | nil => rfl
        | cons k tl =>
          cases tl with
          | nil => rfl
          | cons v tl2 =>
            cases tl2 with
            | cons w tl3 => rfl
            | nil =>
              by_cases ht : k = "temp"
              · subst ht
                simp only [beq_self_eq_true, if_true, Bool.true_or]
                cases hpf : pf v with
                | error e => rfl
                | ok x => exact ih (acc ++ [("temp", x)]) _
              · have htb : (k == "temp") = false := by simp [ht]
                cases hb : (k == "humidity" || k == "pressure") with
                | true =>
                  simp only [htb, Bool.false_eq_true, if_false, hb, if_true,
                    Bool.false_or]
                  cases hpf : pf v with
                  | error e => rfl
                  | ok x => exact ih (acc ++ [(k, x)]) _
                | false =>
                  simp only [htb, Bool.false_eq_true, if_false, hb, Bool.false_or]
                  exact ih acc cnt

end PyPipeline

namespace PyPipeline

/-- C1 (counterexample): routing the demo record through the registered
`ex3.py` json pipeline yields the string
`"Processed temperature reading: 23.5°C (Normal range)"` — with a `°C`
after the value — so the final output is not the claimed
`"Processed temperature reading: 23.5 (Normal range)"`. -/
theorem c1_final_output_counterexample :
    (Ex3.demoManager.process_data demoRecord "json").2
        = .routed (.ok (.str "Processed temperature reading: 23.5°C (Normal range)"))
      ∧ (Ex3.demoManager.process_data demoRecord "json").2
        ≠ .routed (.ok (.str "Processed temperature reading: 23.5 (Normal range)")) := by
  constructor
  · rfl
  · decide

/-- C1 (amended): the record `{sensor:"temp", value:23.5, unit:"C"}` routed
with tag `"json"` produces the rendered string
`"Processed temperature reading: 23.5°C (Normal range)"` as the pipeline's
final output in `ex3.py` (a string, not the raw payload), while in
`nexus_pipeline.py` the same string is only printed and the pipeline's
final value is the mutated record itself. -/
theorem c1_final_output_amended :
    (Ex3.demoManager.process_data demoRecord "json").2
        = .routed (.ok (.str "Processed temperature reading: 23.5°C (Normal range)"))
      ∧ (Nexus.demoManager.process_data demoRecord "json").2
        = .routed (.ok (.dict
            [("sensor", .str "valid"), ("value", .num 235 1), ("unit", .str "C")])) := by
  exact ⟨rfl, rfl⟩

/-- C2 (counterexample): in `ex3.py`, the record `{sfga:"temp"}` — a dict
with no `"sensor"` field — is returned unchanged by
`TransformStage.process`; it does not fail with `InvalidFormat`. -/
theorem c2_missing_sensor_counterexample :
    Ex3.TransformStage.process (.dict [("sfga", .str "temp")])
        = .ok (.dict [("sfga", .str "temp")])
      ∧ Ex3.TransformStage.process (.dict [("sfga", .str "temp")])
        ≠ .error Ex3.InvalidFormat := by
  constructor
  · rfl
  · decide

/-- C2 (amended): for every dict lacking a `"sensor"` field,
`nexus_pipeline.py`'s `TransformStage.process` fails with `InvalidFormat`,
while `ex3.py`'s returns the record unchanged (its only failure trigger is
the sentinel text `"INVALID_DATA"`). -/
theorem c2_missing_sensor_amended (d : Dict) (h : dictHas d "sensor" = false) :
    Nexus.TransformStage.process (.dict d) = .error Nexus.InvalidFormat
      ∧ Ex3.TransformStage.process (.dict d) = .ok (.dict d) := by
  constructor
  · simp [Nexus.TransformStage.process, h]
  · simp [Ex3.TransformStage.process, h]

/-- C2 witness: the amended statement at the concrete sensor-less record
`{sfga:"temp"}`. -/
theorem c2_missing_sensor_witness :
    Nexus.TransformStage.process (.dict [("sfga", .str "temp")])
        = .error Nexus.InvalidFormat
      ∧ Ex3.TransformStage.process (.dict [("sfga", .str "temp")])
        = .ok (.dict [("sfga", .str "temp")]) :=
  c2_missing_sensor_amended [("sfga", .str "temp")] (by decide)

/-- C3 (counterexample): in `nexus_pipeline.py`, `TransformStage.process`
on the record `{sensor:"temp"}` overwrites the original `"sensor"` field
with `"valid"` and adds no `"status"` marker, so an original field does not
keep its original value. -/
theorem c3_preserve_fields_counterexample :
    Nexus.TransformStage.process (.dict [("sensor", .str "temp")])
        = .ok (.dict [("sensor", .str "valid")])
      ∧ dictGet? [("sensor", Val.str "valid")] "sensor" ≠ some (Val.str "temp")
      ∧ dictHas [("sensor", Val.str "valid")] "status" = false := by
  refine ⟨rfl, ?_, rfl⟩
  decide

/-- C3 (amended): for every dict containing a `"sensor"` field, `ex3.py`'s
`TransformStage.process` returns the record with `"status"` set to
`"valid"` and every field other than `"status"` bound as before, while
`nexus_pipeline.py`'s instead overwrites the `"sensor"` field itself with
`"valid"`, leaving every field other than `"sensor"` bound as before. -/
theorem c3_preserve_fields_amended (d : Dict) (h : dictHas d "sensor" = true) :
    Ex3.TransformStage.process (.dict d)
        = .ok (.dict (dictSet d "status" (.str "valid")))
      ∧ dictGet? (dictSet d "status" (.str "valid")) "status" = some (.str "valid")
      ∧ (∀ k, k ≠ "status" →
        dictGet? (dictSet d "status" (.str "valid")) k = dictGet? d k)
      ∧ Nexus.TransformStage.process (.dict d)
        = .ok (.dict (dictSet d "sensor" (.str "valid")))
      ∧ (∀ k, k ≠ "sensor" →
        dictGet? (dictSet d "sensor" (.str "valid")) k = dictGet? d k) := by
  refine ⟨?_, dictGet?_dictSet_self d "status" _,
    fun k hk => dictGet?_dictSet_ne d "status" k _ hk, ?_,
    fun k hk => dictGet?_dictSet_ne d "sensor" k _ hk⟩
  · simp [Ex3.TransformStage.process, h]
  · simp [Nexus.TransformStage.process, h]

/-- C3 witness: the amended statement at the concrete record
`{sensor:"temp", value:23.5}`. -/
theorem c3_preserve_fields_witness :
    Ex3.TransformStage.process (.dict [("sensor", .str "temp"), ("value", .num 235 1)])
        = .ok (.dict [("sensor", .str "temp"), ("value", .num 235 1),
            ("status", .str "valid")])
      ∧ dictGet? (dictSet [("sensor", Val.str "temp"), ("value", Val.num 235 1)]
          "status" (.str "valid")) "value" = some (.num 235 1) :=
  ⟨(c3_preserve_fields_amended [("sensor", .str "temp"), ("value", .num 235 1)]
      (by decide)).1,
    (c3_preserve_fields_amended [("sensor", .str "temp"), ("value", .num 235 1)]
      (by decide)).2.2.1 "value" (by decide)⟩

/-- C4: every text payload containing the `","` delimiter is turned by
`TransformStage.process` into the csv record — marker field `"csv"`, the
ordered split tokens, and count `1`.  The spec's `kind`/`fields` names
correspond to the source keys `type`/`headers` in `ex3.py` and
`type`/`data` in `nexus_pipeline.py`. -/
theorem c4_csv_split_record (s : String) (h : pyContains s ',' = true) :
    Ex3.TransformStage.process (.str s)
        = .ok (.dict [("type", .str "csv"), ("headers", .list (pySplit s ',')),
            ("count", .num 1 0)])
      ∧ Nexus.TransformStage.process (.str s)
        = .ok (.dict [("type", .str "csv"), ("data", .list (pySplit s ',')),
            ("count", .num 1 0)]) := by
  constructor
  · simp [Ex3.TransformStage.process, h]
  · simp [Nexus.TransformStage.process, h]

/-- C4 witness: the claim at the demo text `"user,action,timestamp"`. -/
theorem c4_csv_split_record_witness :
    Ex3.TransformStage.process (.str "user,action,timestamp")
        = .ok (.dict [("type", .str "csv"),
            ("headers", .list ["user", "action", "timestamp"]),
            ("count", .num 1 0)]) :=
  (c4_csv_split_record "user,action,timestamp" (by decide)).1

/-- C5: both variants' `InputStage.process` fail with `EmptyPayload`
exactly on the falsy payloads (`None`, empty text, empty record) and
return every truthy payload unchanged. -/
theorem c5_intake_empty_or_identity (p : Payload) :
    (Ex3.InputStage.process p = .error Ex3.EmptyPayload ↔ pyTruthy p = false)
      ∧ (Nexus.InputStage.process p = .error Nexus.EmptyPayload ↔ pyTruthy p = false)
      ∧ (pyTruthy p = true →
        Ex3.InputStage.process p = .ok p ∧ Nexus.InputStage.process p = .ok p) := by
  cases hp : pyTruthy p <;>
    simp [Ex3.InputStage.process, Nexus.InputStage.process, hp]

/-- C5 witness: the claim at the empty string and at the demo stream
text. -/
theorem c5_intake_empty_or_identity_witness :
    Ex3.InputStage.process (.str "") = .error Ex3.EmptyPayload
      ∧ Nexus.InputStage.process (.str "Real-time sensor stream")
        = .ok (.str "Real-time sensor stream") :=
  ⟨(c5_intake_empty_or_identity (.str "")).1.mpr (by decide),
    ((c5_intake_empty_or_identity (.str "Real-time sensor stream")).2.2
      (by decide)).2⟩

/-- C6: if the stages attached to a pipeline decompose as
`pre ++ failing :: post`, the prefix succeeds, and the failing stage raises,
then the pipeline's run is exactly that error: the stages after the failure
never influence the result (they are universally quantified), no partial
payload is returned, and the error reaches the caller unmodified. -/
theorem c6_fail_fast {σ : Type} (proc : σ → Payload → Except PyErr Payload)
    (pl : PipelineOf σ) (pre post : List σ) (s : σ) (p q : Payload) (e : PyErr)
    (hstages : pl.stages = pre ++ s :: post)
    (hpre : runStages proc pre p = .ok q)
    (hfail : proc s q = .error e) :
    pl.run proc p = .error e := by
  unfold PipelineOf.run
  rw [hstages, runStages_append, hpre]
  simp [runStages, hfail]

/-- C6 witness: the fail-fast law at the `nexus_pipeline.py` stream
pipeline on the record `{sfga:"temp"}`, whose transform stage raises
`InvalidFormat` after the intake stage succeeded. -/
theorem c6_fail_fast_witness :
    PipelineOf.run Nexus.stageProcess
        ⟨AdapterKind.stream, "PIPELINE_03",
          [Nexus.Stage.input, Nexus.Stage.transform, Nexus.Stage.output]⟩
        (.dict [("sfga", .str "temp")]) = .error Nexus.InvalidFormat :=
  c6_fail_fast Nexus.stageProcess _ [Nexus.Stage.input] [Nexus.Stage.output]
    Nexus.Stage.transform (.dict [("sfga", .str "temp")])
    (.dict [("sfga", .str "temp")]) Nexus.InvalidFormat rfl (by decide) (by decide)

/-- C7: when a matching pipeline is registered after any prefix of
non-matching ones, the routing scan selects it whatever is registered later
(so on a shared tag the first-registered wins and later ones are never
reached), and `nexus_pipeline.py`'s `process_data` then runs exactly that
pipeline, deterministically, leaving the registry unchanged. -/
theorem c7_first_registered_wins :
    (∀ (σ : Type) (pre post : List (PipelineOf σ)) (pl : PipelineOf σ)
        (format : String),
      formatMatches pl.kind format = true →
      (∀ q ∈ pre, formatMatches q.kind format = false) →
      selectPipeline (pre ++ pl :: post) format = some pl)
      ∧ (∀ (pre post : List (PipelineOf Nexus.Stage)) (pl : PipelineOf Nexus.Stage)
          (format : String) (data : Payload),
        formatMatches pl.kind format = true →
        (∀ q ∈ pre, formatMatches q.kind format = false) →
        Nexus.NexusManager.process_data ⟨pre ++ pl :: post⟩ data format
          = (⟨pre ++ pl :: post⟩, .routed (Nexus.Pipeline.process pl data))) := by
  constructor
  · exact fun σ pre post pl format h1 h2 => selectPipeline_first pre post pl format h1 h2
  · intro pre post pl format data h1 h2
    simp [Nexus.NexusManager.process_data,
      selectPipeline_first pre post pl format h1 h2]

/-- C7 witness: with two json adapters registered under the same tag, the
scan selects the first-registered one. -/
theorem c7_first_registered_wins_witness :
    selectPipeline
        [(⟨AdapterKind.json, "PIPE_01", [Nexus.Stage.input]⟩ : PipelineOf Nexus.Stage),
          ⟨AdapterKind.json, "PIPE_99", [Nexus.Stage.input]⟩] "json"
      = some ⟨AdapterKind.json, "PIPE_01", [Nexus.Stage.input]⟩ :=
  c7_first_registered_wins.1 Nexus.Stage []
    [⟨AdapterKind.json, "PIPE_99", [Nexus.Stage.input]⟩]
    ⟨AdapterKind.json, "PIPE_01", [Nexus.Stage.input]⟩ "json" rfl (by simp)

/-- C8: when no registered pipeline matches the requested tag, both
managers' `process_data` return the routing-error report naming the tag
(no exception, no stage execution), the registry is unchanged, and any
subsequent request on the resulting manager behaves exactly as on the
original one. -/
theorem c8_routing_error_unmatched (mN : Nexus.NexusManager) (mE : Ex3.NexusManager)
    (data : Payload) (format : String)
    (hN : ∀ p ∈ mN.pipeline, formatMatches p.kind format = false)
    (hE : ∀ p ∈ mE.pipelines, formatMatches p.kind format = false) :
    mN.process_data data format = (mN, .noRoute (Nexus.routingErrorMsg format))
      ∧ Nexus.routingErrorMsg format
        = "[ERROR]: " ++ format ++ " is not a register pipeline"
      ∧ (∀ d2 f2, ((mN.process_data data format).1).process_data d2 f2
        = mN.process_data d2 f2)
      ∧ mE.process_data data format = (mE, .noRoute (Ex3.routingErrorMsg format))
      ∧ Ex3.routingErrorMsg format
        = "[ERROR] No suitable pipeline found for " ++ format := by
  have hsN : selectPipeline mN.pipeline format = Option.none :=
    selectPipeline_eq_none mN.pipeline format hN
  have hsE : selectPipeline mE.pipelines format = Option.none :=
    selectPipeline_eq_none mE.pipelines format hE
  refine ⟨?_, rfl, ?_, ?_, rfl⟩
  · simp [Nexus.NexusManager.process_data, hsN]
  · intro d2 f2
    simp [Nexus.NexusManager.process_data, hsN]
  · simp [Ex3.NexusManager.process_data, hsE]

/-- C8 witness: the demo registry holds no adapter for the tag `"xml"`, so
routing reports the error naming `"xml"` and the registry is returned
unchanged. -/
theorem c8_routing_error_unmatched_witness :
    Nexus.NexusManager.process_data Nexus.demoManager demoRecord "xml"
        = (Nexus.demoManager, .noRoute "[ERROR]: xml is not a register pipeline")
      ∧ Ex3.NexusManager.process_data Ex3.demoManager demoRecord "xml"
        = (Ex3.demoManager, .noRoute "[ERROR] No suitable pipeline found for xml") :=
  ⟨(c8_routing_error_unmatched Nexus.demoManager Ex3.demoManager demoRecord "xml"
      (by decide) (by decide)).1,
    (c8_routing_error_unmatched Nexus.demoManager Ex3.demoManager demoRecord "xml"
      (by decide) (by decide)).2.2.2.1⟩

/-- C9: `NumericProcessor.validate` accepts the empty list (its type-check
loop never runs), and `NumericProcessor.process` on the empty list then
reaches `avg = sum / count` with `count = 0` and raises
`ZeroDivisionError` — it returns neither a summary string nor the `None`
of a validation failure. -/
theorem c9_empty_list_division_by_zero :
    StreamProc.NumericProcessor.validate [] = true
      ∧ StreamProc.NumericProcessor.process []
        = .error (.zeroDivisionError "division by zero") := by
  exact ⟨rfl, rfl⟩

/-- C10: `SensorStream.filter_data` returns exactly the same filtered list
(and the same exception, if any) under the `"High-priority"` criteria as
with the criteria omitted — for every batch and every behavior of the
`float` builtin — and any other criteria value also falls through to the
default branch; only the `criteria_sensor` counter distinguishes the
high-priority run. -/
theorem c10_high_priority_same_list (pf : String → Except PyErr Rat)
    (batch : List DataStream.SItem) (criteria : Option String) :
    (DataStream.SensorStream.filter_data pf batch (some "High-priority")).map Prod.fst
        = (DataStream.SensorStream.filter_data pf batch Option.none).map Prod.fst
      ∧ (criteria ≠ some "High-priority" →
        DataStream.SensorStream.filter_data pf batch criteria
          = DataStream.SensorStream.filter_data pf batch Option.none) := by
  constructor
  · show (DataStream.sensorFilterHP pf batch [] 0).map Prod.fst
      = ((DataStream.sensorFilterDefault pf batch []).map fun l => (l, 0)).map Prod.fst
    rw [sensorFilterHP_map_fst pf batch [] 0]
    cases hd : DataStream.sensorFilterDefault pf batch [] <;> simp [Except.map]
  · intro hne
    have hb : (criteria == some "High-priority") = false := by
      cases hcb : criteria == some "High-priority"
      · rfl
      · exact absurd (eq_of_beq hcb) hne
    simp [DataStream.SensorStream.filter_data, hb]

/-- C10 witness: the claim at a concrete batch and a concrete parse
function, with the non-high-priority criteria `"Low"`. -/
theorem c10_high_priority_same_list_witness :
    (DataStream.SensorStream.filter_data
          (fun v => if v == "30" then .ok 30 else .error (.valueError v))
          [.str "temp:30", .str "login", .nonStr] (some "High-priority")).map Prod.fst
        = (DataStream.SensorStream.filter_data
          (fun v => if v == "30" then .ok 30 else .error (.valueError v))
          [.str "temp:30", .str "login", .nonStr] Option.none).map Prod.fst
      ∧ DataStream.SensorStream.filter_data
          (fun v => if v == "30" then .ok 30 else .error (.valueError v))
          [.str "temp:30", .str "login", .nonStr] (some "Low")
        = DataStream.SensorStream.filter_data
          (fun v => if v == "30" then .ok 30 else .error (.valueError v))
          [.str "temp:30", .str "login", .nonStr] Option.none :=
  ⟨(c10_high_priority_same_list
      (fun v => if v == "30" then .ok 30 else .error (.valueError v))
      [.str "temp:30", .str "login", .nonStr] (some "Low")).1,
    (c10_high_priority_same_list
      (fun v => if v == "30" then .ok 30 else .error (.valueError v))
      [.str "temp:30", .str "login", .nonStr] (some "Low")).2 (by decide)⟩

end PyPipeline
